import Mathlib

/-!
Shallow embedding of the orchestration logic of the vers-integration-plugin
repository (src/scripts/mcp-server.ts) together with theorems checking the
claims of its natural-language specification.

Modelling conventions:
* JavaScript objects with string keys become association lists
  `List (String × _)` in declaration order; `Record` key uniqueness is a
  hypothesis where it matters.
* Calls into the external `vers` CLI and into `execAsync` are modelled as
  events in a trace (`Event`), so temporal claims become statements about
  positions in the produced event list.
* `execAsync` (which rejects on a non-zero exit code) is modelled by an
  environment-supplied function `sh : String → Except String String`;
  `execVers` never throws in the source (it catches and returns stderr), so
  vers branching primitives never abort control flow.
* JavaScript truthiness of `x || d` on numbers and strings is modelled by
  `jsOrInt` / `jsOrStr` (0, "" and undefined select the default).
-/

namespace VersIntegration

/-- Projection of the source interface ServiceConfig (mcp-server.ts lines
27-42): the fields the orchestration logic reads are `template` and
`depends_on`. -/
structure ServiceConfig where
  template : String
  depends_on : List String := []
  deriving DecidableEq, Repr

/-- Source interface TestBranch (lines 68-73). -/
structure TestBranch where
  name : String
  env : List (String × String) := []
  before : Option String := none
  after : Option String := none
  deriving DecidableEq, Repr

/-- Source interface TestSuite (lines 60-66). -/
structure TestSuite where
  command : String
  parallel : Bool := false
  depends_on : List String := []
  branches : List TestBranch := []
  env : List (String × String) := []
  deriving DecidableEq, Repr

/-- Source Checkpoint manifest entry (lines 75-79). -/
structure CheckpointSpec where
  name : String
  after : String
  description : Option String := none
  deriving DecidableEq, Repr

/-- Source vm block of IntegrationManifest (lines 48-52). -/
structure VmSpec where
  memory_mib : Nat
  vcpu : Nat
  storage_mib : Nat
  deriving DecidableEq, Repr

/-- Projection of the source DeployConfig (lines 81-97): the fields
integration_init writes. -/
structure DeployConfig where
  target : String
  domain : Option String := none
  deriving DecidableEq, Repr

/-- Source interface IntegrationManifest (lines 44-58). -/
structure Manifest where
  name : String
  version : String
  description : Option String := none
  vm : VmSpec
  services : List (String × ServiceConfig) := []
  tests : List (String × TestSuite) := []
  checkpoints : List CheckpointSpec := []
  matrix : List (String × List String) := []
  deploy : List (String × DeployConfig) := []
  deriving DecidableEq, Repr

/-- Source TestResult (lines 115-122); the wall-clock duration_ms field is
outside the embedding. -/
inductive TStatus
  | passed
  | failed
  | skipped
  | error
  deriving DecidableEq, Repr

/-- Source TestResult record (lines 115-122). -/
structure TestResult where
  suite : String
  branch : String
  status : TStatus
  output : Option String := none
  err : Option String := none
  deriving DecidableEq, Repr

/-- One call into the vers platform or the local shell, in issue order.
`commit`, `branch`, `checkout` are the vers branching primitives;
`run` is a shell command (`execVers` subcommand or `execAsync`);
`setTemplate` is the in-place mutation of a manifest service template
performed by runCombination (lines 907-914). -/
inductive Event
  | commit (tag : String)
  | branch (b : String)
  | checkout (target : String)
  | run (cmd : String)
  | setTemplate (service : String) (version : String)
  deriving DecidableEq, Repr

/-- Extracts the alias of a branch-creation event. -/
def branchAliasOf : Event → Option String
  | Event.branch b => some b
  | _ => none

/-- A shell environment in which every command succeeds. -/
def ShellOk (sh : String → Except String String) : Prop :=
  ∀ c, ∃ o, sh c = Except.ok o

/-! ## integration_up (mcp-server.ts lines 604-676): service start ordering -/

/-- Mutable state of the integration_up start loop: the issued
`service start` commands in order, and the `started` / `failed` lists of the
source. -/
structure UpState where
  issued : List String
  started : List String
  failed : List String
  deriving DecidableEq, Repr

/-- Source lines 638-648: the unmet direct dependencies are computed once
against `started`, then each receives a `service start` command; a
successful start (modelled by `ok`) is appended to `started`. -/
def startDeps (ok : String → Bool) (st : UpState) (deps : List String) : UpState :=
  let unmet := deps.filter (fun d => !(st.started.contains d))
  unmet.foldl
    (fun s dep =>
      let s2 : UpState := { s with issued := s.issued ++ [dep] }
      if ok dep then { s2 with started := s2.started ++ [dep] } else s2)
    st

/-- Source lines 626-656: the start loop of integration_up. Services are
taken in request order (defaulting to manifest declaration order); a service
missing from the manifest is recorded as failed; otherwise its unmet direct
dependencies are started first, then the service itself. -/
def integrationUp (services : List (String × ServiceConfig)) (toStart : List String)
    (ok : String → Bool) : UpState :=
  toStart.foldl
    (fun st svc =>
      match services.lookup svc with
      | none => { st with failed := st.failed ++ [svc] }
      | some cfg =>
        let st1 := startDeps ok st cfg.depends_on
        let st2 : UpState := { st1 with issued := st1.issued ++ [svc] }
        if ok svc then { st2 with started := st2.started ++ [svc] }
        else { st2 with failed := st2.failed ++ [svc] })
    { issued := [], started := [], failed := [] }

/-- Direct dependencies of a service per the manifest. -/
def depsOf (services : List (String × ServiceConfig)) (s : String) : List String :=
  match services.lookup s with
  | some cfg => cfg.depends_on
  | none => []

/-- Services reachable from `s` through `depends_on` edges in at most `n`
steps. -/
def reach (services : List (String × ServiceConfig)) : Nat → String → List String
  | 0, _ => []
  | n + 1, s => (depsOf services s).flatMap (fun d => d :: reach services n d)

/-- The dependency graph of the manifest has no cycle: no service reaches
itself through `depends_on` edges. -/
def Acyclic (services : List (String × ServiceConfig)) : Prop :=
  ∀ p ∈ services, p.1 ∉ reach services services.length p.1

instance (services : List (String × ServiceConfig)) : Decidable (Acyclic services) :=
  inferInstanceAs (Decidable (∀ p ∈ services, p.1 ∉ reach services services.length p.1))

/-! ## integration_test (mcp-server.ts lines 744-859): scenario execution -/

/-- Source line 783: environment entries rendered as `KEY=value` joined by
spaces. -/
def envString (env : List (String × String)) : String :=
  String.intercalate " " (env.map fun kv => kv.1 ++ "=" ++ kv.2)

/-- Source line 782, the JavaScript spread `{...suite.env, ...branch.env}`:
suite keys in order with branch values winning on collision, then the
branch-only keys. -/
def mergeEnv (a b : List (String × String)) : List (String × String) :=
  (a.map fun kv => (kv.1, (b.lookup kv.1).getD kv.2))
    ++ b.filter (fun kv => (a.lookup kv.1).isNone)

/-- An optional before/after hook (source lines 777-779 and 806-808): the
command is executed with no surrounding try/catch, so a failure propagates. -/
def hookRun (sh : String → Except String String) (hk : Option String) :
    List Event × Except String Unit :=
  match hk with
  | none => ([], Except.ok ())
  | some c =>
    ([Event.run c],
      match sh c with
      | Except.ok _ => Except.ok ()
      | Except.error e => Except.error e)

/-- One branch scenario of a suite (source lines 769-809): create the branch
from the current HEAD, check it out, run the optional before hook, run the
test command under the merged environment inside try/catch, run the optional
after hook. The pair is the produced event trace and either the TestResult
or the propagated hook exception. -/
def runBranchScenario (sh : String → Except String String) (pfx sname : String)
    (cfg : TestSuite) (br : TestBranch) : List Event × Except String TestResult :=
  match (hookRun sh br.before).2 with
  | Except.error e =>
    ([Event.branch (pfx ++ "-" ++ sname ++ "-" ++ br.name),
      Event.checkout (pfx ++ "-" ++ sname ++ "-" ++ br.name)] ++ (hookRun sh br.before).1,
      Except.error e)
  | Except.ok _ =>
    match (hookRun sh br.after).2 with
    | Except.error e =>
      ([Event.branch (pfx ++ "-" ++ sname ++ "-" ++ br.name),
        Event.checkout (pfx ++ "-" ++ sname ++ "-" ++ br.name)] ++ (hookRun sh br.before).1
          ++ [Event.run (envString (mergeEnv cfg.env br.env) ++ " " ++ cfg.command)]
          ++ (hookRun sh br.after).1,
        Except.error e)
    | Except.ok _ =>
      ([Event.branch (pfx ++ "-" ++ sname ++ "-" ++ br.name),
        Event.checkout (pfx ++ "-" ++ sname ++ "-" ++ br.name)] ++ (hookRun sh br.before).1
          ++ [Event.run (envString (mergeEnv cfg.env br.env) ++ " " ++ cfg.command)]
          ++ (hookRun sh br.after).1,
        Except.ok
          (match sh (envString (mergeEnv cfg.env br.env) ++ " " ++ cfg.command) with
          | Except.ok out =>
            { suite := sname, branch := br.name, status := TStatus.passed, output := some out }
          | Except.error e =>
            { suite := sname, branch := br.name, status := TStatus.failed, err := some e }))

/-- The for-loop over a suite's branches (source lines 769-809): scenarios
run in declaration order; an uncaught hook exception aborts the loop and the
already-collected results are lost. -/
def runScenarios (sh : String → Except String String) (pfx sname : String)
    (cfg : TestSuite) : List TestBranch → List Event × Except String (List TestResult)
  | [] => ([], Except.ok [])
  | br :: rest =>
    match (runBranchScenario sh pfx sname cfg br).2 with
    | Except.error e => ((runBranchScenario sh pfx sname cfg br).1, Except.error e)
    | Except.ok r =>
      match (runScenarios sh pfx sname cfg rest).2 with
      | Except.error e =>
        ((runBranchScenario sh pfx sname cfg br).1 ++ (runScenarios sh pfx sname cfg rest).1,
          Except.error e)
      | Except.ok rs =>
        ((runBranchScenario sh pfx sname cfg br).1 ++ (runScenarios sh pfx sname cfg rest).1,
          Except.ok (r :: rs))

/-- The runTest helper of integration_test (source lines 764-838): a suite
with branch variants runs each as a scenario; a suite without them runs once
on branch `pfx-suite`, with its command inside try/catch and no hooks. -/
def runTest (sh : String → Except String String) (pfx sname : String) (cfg : TestSuite) :
    List Event × Except String (List TestResult) :=
  if cfg.branches.isEmpty then
    ([Event.branch (pfx ++ "-" ++ sname), Event.checkout (pfx ++ "-" ++ sname),
      Event.run cfg.command],
      Except.ok
        [match sh cfg.command with
        | Except.ok out =>
          { suite := sname, branch := pfx ++ "-" ++ sname, status := TStatus.passed,
            output := some out }
        | Except.error e =>
          { suite := sname, branch := pfx ++ "-" ++ sname, status := TStatus.failed,
            err := some e }])
  else runScenarios sh pfx sname cfg cfg.branches

/-- The sequential mode of integration_test (source lines 844-849): suites
run in declaration order; an uncaught exception aborts the run. -/
def runSuitesSeq (sh : String → Except String String) (pfx : String) :
    List (String × TestSuite) → List Event × Except String (List TestResult)
  | [] => ([], Except.ok [])
  | p :: rest =>
    match (runTest sh pfx p.1 p.2).2 with
    | Except.error e => ((runTest sh pfx p.1 p.2).1, Except.error e)
    | Except.ok rs =>
      match (runSuitesSeq sh pfx rest).2 with
      | Except.error e =>
        ((runTest sh pfx p.1 p.2).1 ++ (runSuitesSeq sh pfx rest).1, Except.error e)
      | Except.ok rs2 =>
        ((runTest sh pfx p.1 p.2).1 ++ (runSuitesSeq sh pfx rest).1, Except.ok (rs ++ rs2))

/-- The full trace of an integration_test run: the baseline checkpoint commit
(source line 762, awaited before runTest is ever invoked) followed by the
scenario events. -/
def integrationTestTrace (pfx ts : String) (body : List Event) : List Event :=
  Event.commit (pfx ++ "-baseline-" ++ ts) :: body

/-- Sequential integration_test run: trace and results. -/
def integrationTestSeq (sh : String → Except String String) (pfx ts : String)
    (suites : List (String × TestSuite)) : List Event × Except String (List TestResult) :=
  (integrationTestTrace pfx ts (runSuitesSeq sh pfx suites).1, (runSuitesSeq sh pfx suites).2)

/-- Interleavings of several event traces, preserving each trace's internal
order: the possible global event orders of parallel mode (source lines
840-843, Promise.all over the per-suite runTest tasks). -/
inductive Merge : List (List Event) → List Event → Prop
  | nil (ls : List (List Event)) (h : ∀ l ∈ ls, l = []) : Merge ls []
  | step (ls : List (List Event)) (i : Nat) (e : Event) (rest t : List Event)
      (hget : ls.get? i = some (e :: rest)) (hm : Merge (ls.set i rest) t) :
      Merge ls (e :: t)

/-- The branch alias every scenario of a run derives (source lines 770 and
812): `pfx-suite-scenario` for explicit branch variants, `pfx-suite` for the
implicit single scenario. -/
def scenarioAliases (pfx : String) (suites : List (String × TestSuite)) : List String :=
  suites.flatMap fun p =>
    if p.2.branches.isEmpty then [pfx ++ "-" ++ p.1]
    else p.2.branches.map fun br => pfx ++ "-" ++ p.1 ++ "-" ++ br.name

/-- Replays a trace against the vers HEAD pointer: `vers branch --alias a`
with no `--from` forks from the current HEAD (source lines 305-310 document
the default), and `checkout` moves HEAD. Returns each created branch paired
with the HEAD it was forked from. -/
def forkParents (head : String) : List Event → List (String × String)
  | [] => []
  | Event.branch b :: rest => (b, head) :: forkParents head rest
  | Event.checkout t :: rest => forkParents t rest
  | _ :: rest => forkParents head rest

/-! ## integration_matrix (mcp-server.ts lines 861-956) -/

/-- Source line 889: a version is skipped iff a filter is present, has a
truthy entry for the dimension, and that entry differs from the version. -/
def passesFilter (f : Option (List (String × String))) (k v : String) : Bool :=
  match f with
  | none => true
  | some fl =>
    match fl.lookup k with
    | none => true
    | some w => if w = "" then true else w = v

/-- The recursive combination generator of integration_matrix (source lines
879-895): walks the dimensions in declaration order, skipping filtered
values during generation. -/
def generate (f : Option (List (String × String))) :
    List (String × List String) → List (List (String × String))
  | [] => [[]]
  | (k, vs) :: rest =>
    (vs.filter (passesFilter f k)).flatMap fun v =>
      (generate f rest).map fun c => (k, v) :: c

/-- Declarative description of one combination: a choice of one
filter-passing value per dimension, in dimension order. -/
def IsChoice (f : Option (List (String × String))) :
    List (String × List String) → List (String × String) → Prop
  | [], c => c = []
  | (k, vs) :: rest, c =>
    ∃ v c2, v ∈ vs ∧ passesFilter f k v = true ∧ IsChoice f rest c2 ∧ c = (k, v) :: c2

/-- Source line 911, `template.split("@")[0]`: the part of the template id
before the first `@`. -/
def templateBase (t : String) : String :=
  String.mk (t.toList.takeWhile fun c => c ≠ '@')

/-- Replaces the entry of a key in an association list (the in-place object
mutation `svcConfig.template = ...` of source line 912). -/
def setEntry (svcs : List (String × ServiceConfig)) (name : String) (cfg : ServiceConfig) :
    List (String × ServiceConfig) :=
  svcs.map fun p => if p.1 = name then (p.1, cfg) else p

/-- The service-version substitution loop of runCombination (source lines
907-914): for each dimension of the combination present in the manifest,
rewrite that service's template to `base@version`. -/
def updateServices (services : List (String × ServiceConfig))
    (combo : List (String × String)) : List (String × ServiceConfig) :=
  combo.foldl
    (fun svcs kv =>
      match svcs.lookup kv.1 with
      | none => svcs
      | some cfg =>
        setEntry svcs kv.1 { cfg with template := templateBase cfg.template ++ "@" ++ kv.2 })
    services

/-- Source line 900: the combination name `k1v1-k2v2-...`. -/
def comboName (combo : List (String × String)) : String :=
  String.intercalate "-" (combo.map fun kv => kv.1 ++ kv.2)

/-- The event trace of one runCombination call (source lines 899-928):
branch and checkout `matrix-name`, mutate the template of each service named
by the combination, restart services, run the tests. -/
def runCombinationTrace (services : List (String × ServiceConfig))
    (combo : List (String × String)) : List Event :=
  [Event.branch ("matrix-" ++ comboName combo), Event.checkout ("matrix-" ++ comboName combo)]
    ++ combo.filterMap (fun kv =>
        match services.lookup kv.1 with
        | some _ => some (Event.setTemplate kv.1 kv.2)
        | none => none)
    ++ [Event.run "service restart --all", Event.run "npm test"]

/-- Status of one matrix combination result (source lines 922-927 and 941). -/
inductive MStatus
  | passed
  | failed
  | error
  deriving DecidableEq, Repr

/-- One matrix combination result record. -/
structure MatrixResult where
  combination : List (String × String)
  status : MStatus
  info : String := ""
  deriving DecidableEq, Repr

/-- The result runCombination yields for a combination under an outcome
environment: `Except.ok b` models `npm test` resolving with `b` = stderr
nonempty (reported as failed, source line 925), `Except.error` models the
command rejecting. -/
def matrixResultOf (outcome : List (String × String) → Except String Bool)
    (c : List (String × String)) : MatrixResult :=
  match outcome c with
  | Except.ok b =>
    { combination := c, status := if b then MStatus.failed else MStatus.passed }
  | Except.error e => { combination := c, status := MStatus.error, info := e }

/-- Sequential matrix execution (source lines 934-945): each result is
pushed before the `continue_on_failure` check, and a failed or error result
breaks the loop when `cont` is false. -/
def runMatrixSeq (outcome : List (String × String) → Except String Bool) (cont : Bool) :
    List (List (String × String)) → List MatrixResult
  | [] => []
  | c :: rest =>
    match outcome c with
    | Except.ok b =>
      if b && !cont then [matrixResultOf outcome c]
      else matrixResultOf outcome c :: runMatrixSeq outcome cont rest
    | Except.error _ =>
      if !cont then [matrixResultOf outcome c]
      else matrixResultOf outcome c :: runMatrixSeq outcome cont rest

/-- Parallel matrix execution (source lines 930-933): Promise.all over every
combination; one rejection rejects the whole run and no results are
reported. -/
def runMatrixPar (outcome : List (String × String) → Except String Bool) :
    List (List (String × String)) → Except String (List MatrixResult)
  | [] => Except.ok []
  | c :: rest =>
    match outcome c with
    | Except.error e => Except.error e
    | Except.ok _ =>
      match runMatrixPar outcome rest with
      | Except.error e => Except.error e
      | Except.ok rs => Except.ok (matrixResultOf outcome c :: rs)

/-- The mode dispatch of integration_matrix (source lines 930-945). -/
def integrationMatrix (outcome : List (String × String) → Except String Bool)
    (parallel cont : Bool) (combos : List (List (String × String))) :
    Except String (List MatrixResult) :=
  if parallel then runMatrixPar outcome combos
  else Except.ok (runMatrixSeq outcome cont combos)

/-! ## chaos_inject (mcp-server.ts lines 1367-1418) -/

/-- JavaScript `x || d` on an optional number: undefined and 0 take the
default. -/
def jsOrInt (o : Option Int) (d : Int) : Int :=
  match o with
  | none => d
  | some i => if i = 0 then d else i

/-- JavaScript `x || d` on an optional string: undefined and "" take the
default. -/
def jsOrStr (o : Option String) (d : String) : String :=
  match o with
  | none => d
  | some s => if s = "" then d else s

/-- A single-quote character as a string. -/
def sq : String := (Char.ofNat 39).toString

/-- The chaos action enum of the tool schema (source line 1371). -/
inductive ChaosAction
  | kill
  | pause
  | networkIsolate
  | cpuStress
  | memoryStress
  | diskFill
  deriving DecidableEq, Repr

/-- The vers command built by the chaos_inject switch (source lines
1380-1406); intensity defaults are 80 for cpu and memory stress and 95 for
disk-fill, duration defaults to 30s for the timed stressors. -/
def chaosCommand (service : String) (action : ChaosAction) (duration : Option String)
    (intensity : Option Int) : String :=
  match action with
  | ChaosAction.kill => "service stop " ++ service ++ " --force"
  | ChaosAction.pause => "service pause " ++ service
  | ChaosAction.networkIsolate =>
    "execute --service " ++ service
      ++ " \"iptables -A INPUT -j DROP && iptables -A OUTPUT -j DROP\""
  | ChaosAction.cpuStress =>
    "execute --service " ++ service ++ " \"stress-ng --cpu 2 --cpu-load "
      ++ toString (jsOrInt intensity 80) ++ " --timeout " ++ jsOrStr duration "30s" ++ "\""
  | ChaosAction.memoryStress =>
    "execute --service " ++ service ++ " \"stress-ng --vm 1 --vm-bytes "
      ++ toString (jsOrInt intensity 80) ++ "% --timeout " ++ jsOrStr duration "30s" ++ "\""
  | ChaosAction.diskFill =>
    "execute --service " ++ service ++ " \"fallocate -l $(df / | awk " ++ sq
      ++ "NR==2 \x7bprint int($4*" ++ toString (jsOrInt intensity 95) ++ "/100)\x7d" ++ sq
      ++ ")K /tmp/fill\""

/-- The structured result chaos_inject returns (source lines 1410-1417). -/
structure ChaosResult where
  service : String
  action : ChaosAction
  duration : String
  rollback_checkpoint : String
  deriving DecidableEq, Repr

/-- chaos_inject (source lines 1375-1418): commit the pre-chaos checkpoint,
then issue the chaos command; return the checkpoint tag as the rollback
checkpoint. `ts` stands in for `Date.now()`. -/
def chaosInject (service : String) (action : ChaosAction) (duration : Option String)
    (intensity : Option Int) (ts : String) : List Event × ChaosResult :=
  ([Event.commit ("pre-chaos-" ++ service ++ "-" ++ ts),
    Event.run (chaosCommand service action duration intensity)],
    { service := service, action := action, duration := jsOrStr duration "permanent",
      rollback_checkpoint := "pre-chaos-" ++ service ++ "-" ++ ts })

/-! ## integration_init (mcp-server.ts lines 384-542) -/

/-- The files integration_init touches: the manifest
(vers-integration.yaml, where `none` covers both a missing and an
unparseable file, matching readManifest on lines 138-145), vers.toml, and
the created directories. -/
structure FileSys where
  manifest : Option Manifest := none
  versToml : Option String := none
  dirs : List String := []
  deriving DecidableEq, Repr

/-- The base manifest integration_init builds (source lines 400-422). -/
def baseManifest (name : String) : Manifest :=
  { name := name
    version := "1.0.0"
    description := some ("Integration testing project: " ++ name)
    vm := { memory_mib := 2048, vcpu := 2, storage_mib := 8000 }
    services := []
    tests := []
    checkpoints := []
    matrix := []
    deploy :=
      [("staging",
        { target := "vers.sh/hosted", domain := some (name ++ "-staging.vers.sh") }),
       ("production",
        { target := "vers.sh/hosted", domain := some (name ++ ".vers.sh") })] }

/-- The template blocks of integration_init (source lines 424-512),
projected to the embedded manifest fields. -/
def applyTemplate (templateName : String) (m : Manifest) : Manifest :=
  if templateName = "saas-starter" then
    { m with
      services :=
        [("postgres", { template := "postgres@15" }),
         ("redis", { template := "redis@7" }),
         ("stripe", { template := "stripe-mock" }),
         ("oauth", { template := "oauth-mock" }),
         ("smtp", { template := "mailhog" })]
      tests :=
        [("unit", { command := "npm run test:unit", parallel := true }),
         ("integration",
          { command := "npm run test:integration", depends_on := ["postgres", "redis"] }),
         ("e2e",
          { command := "npm run test:e2e", depends_on := ["postgres", "redis", "stripe"] })] }
  else if templateName = "microservices" then
    { m with
      vm := { m.vm with memory_mib := 4096 }
      services :=
        [("kafka", { template := "kafka@3" }),
         ("postgres", { template := "postgres@15" }),
         ("mongodb", { template := "mongodb@7" }),
         ("redis", { template := "redis@7" })] }
  else if templateName = "data-pipeline" then
    { m with
      vm := { m.vm with memory_mib := 4096 }
      services :=
        [("postgres-source", { template := "postgres@15" }),
         ("postgres-warehouse", { template := "postgres@15" }),
         ("elasticsearch", { template := "elasticsearch@8" }),
         ("redis", { template := "redis@7" })] }
  else if templateName = "ecommerce" then
    { m with
      services :=
        [("postgres", { template := "postgres@15" }),
         ("redis", { template := "redis@7" }),
         ("elasticsearch", { template := "elasticsearch@8" }),
         ("stripe", { template := "stripe-mock" }),
         ("s3", { template := "localstack" })] }
  else m

/-- The vers.toml content written by integration_init (source lines
521-528). -/
def versTomlFor (m : Manifest) : String :=
  "[vm]\nmemory_mib = " ++ toString m.vm.memory_mib ++ "\nvcpu = " ++ toString m.vm.vcpu
    ++ "\n\n[storage]\ncluster_mib = " ++ toString m.vm.storage_mib ++ "\nvm_mib = "
    ++ toString (m.vm.storage_mib / 2) ++ "\n"

/-- integration_init (source lines 390-541): if a manifest already parses,
return the already-initialized message and touch nothing; otherwise write
the templated manifest, create the tests and scripts directories (mkdir
recursive, a no-op on existing directories) and write vers.toml. -/
def integrationInit (fs : FileSys) (name : String) (template : Option String) :
    FileSys × String :=
  match fs.manifest with
  | some existing => (fs, "Project already initialized: " ++ existing.name)
  | none =>
    let m := applyTemplate (template.getD "blank") (baseManifest name)
    ({ manifest := some m
       versToml := some (versTomlFor m)
       dirs := fs.dirs ++ (["tests", "scripts"].filter fun d => !(fs.dirs.contains d)) },
      "initialized")

/-! ## Concrete inputs used by counterexamples and witnesses -/

/-- A three-service dependency chain a -> b -> c in declaration order
a, b, c. -/
def exUpServices : List (String × ServiceConfig) :=
  [("a", { template := "a@1", depends_on := ["b"] }),
   ("b", { template := "b@1", depends_on := ["c"] }),
   ("c", { template := "c@1" })]

/-- A shell in which every command succeeds with empty output. -/
def exShOk : String → Except String String := fun _ => Except.ok ""

/-- One suite with two branch scenarios. -/
def exC2Suites : List (String × TestSuite) :=
  [("s", { command := "npm test", branches := [{ name := "b1" }, { name := "b2" }] })]

/-- Two suites whose derived aliases collide: test-a-b-c twice. -/
def exCollidingSuites : List (String × TestSuite) :=
  [("a", { command := "t", branches := [{ name := "b-c" }] }),
   ("a-b", { command := "t", branches := [{ name := "c" }] })]

/-- A shell in which only the after-hook command `cleanup` fails. -/
def exSh9 : String → Except String String :=
  fun c => if c = "cleanup" then Except.error "boom" else Except.ok ""

/-- A suite whose first scenario has a failing after hook and whose second
scenario is ordinary. -/
def exSuite9 : TestSuite :=
  { command := "npm test",
    branches := [{ name := "b1", after := some "cleanup" }, { name := "b2" }] }

/-- The example matrix of the specification. -/
def exMatrix : List (String × List String) :=
  [("postgres", ["14", "15", "16"]), ("redis", ["6", "7"])]

/-- A matrix with a duplicated value inside one dimension list. -/
def exDupMatrix : List (String × List String) :=
  [("postgres", ["14", "14"])]

/-- Two matrix combinations. -/
def exCombos : List (List (String × String)) :=
  [[("postgres", "14")], [("postgres", "15")]]

/-- An outcome environment in which the first combination fails (nonempty
stderr) and the second passes. -/
def exOutcome : List (String × String) → Except String Bool :=
  fun c => Except.ok (c == [("postgres", "14")])

/-- An outcome environment in which every combination passes. -/
def exOutcomePass : List (String × String) → Except String Bool :=
  fun _ => Except.ok false

/-- A manifest service map with one postgres service. -/
def exServices4 : List (String × ServiceConfig) :=
  [("postgres", { template := "postgres@15" })]

/-- A combination selecting postgres 16. -/
def exCombo4 : List (String × String) :=
  [("postgres", "16")]

/-- A file system that already holds an initialized project. -/
def exFs : FileSys :=
  { manifest := some (baseManifest "demo"), versToml := some "[vm]", dirs := ["tests"] }

/-! ## Helper lemmas -/

lemma lookup_cons {β : Type} (a : String) (b : β) (l : List (String × β)) (k : String) :
    ((a, b) :: l).lookup k = if k = a then some b else l.lookup k := by
  by_cases h : k = a
  · subst h; simp [List.lookup]
  · simp [List.lookup, beq_eq_false_iff_ne.mpr h, h]

lemma lookup_eq_none {β : Type} (l : List (String × β)) (k : String)
    (h : k ∉ l.map Prod.fst) : l.lookup k = none := by
  induction l with
  | nil => rfl
  | cons p rest ih =>
    rcases p with ⟨a, b⟩
    rw [lookup_cons, if_neg (fun e => h (by simp [e]))]
    exact ih fun hm => h (by simp [hm])

lemma setEntry_lookup (svcs : List (String × ServiceConfig)) (k : String)
    (cfg : ServiceConfig) (name : String) :
    (setEntry svcs k cfg).lookup name =
      (svcs.lookup name).map fun b => if name = k then cfg else b := by
  induction svcs with
  | nil => rfl
  | cons p rest ih =>
    rcases p with ⟨a, b⟩
    simp only [setEntry, List.map_cons]
    by_cases hak : a = k <;> by_cases han : name = a <;>
      simp_all [lookup_cons, setEntry]

lemma updateStep_lookup (svcs : List (String × ServiceConfig)) (k v name : String) :
    (match svcs.lookup k with
      | none => svcs
      | some cfg =>
        setEntry svcs k { cfg with template := templateBase cfg.template ++ "@" ++ v }).lookup
        name =
      if name = k then
        (svcs.lookup k).map
          fun cfg => { cfg with template := templateBase cfg.template ++ "@" ++ v }
      else svcs.lookup name := by
  cases h : svcs.lookup k with
  | none =>
    by_cases hn : name = k
    · subst hn; simp [h]
    · simp [hn]
  | some cfg =>
    rw [setEntry_lookup]
    by_cases hn : name = k
    · subst hn; rw [h]; simp
    · simp [hn]

lemma updateServices_lookup :
    ∀ (combo : List (String × String)) (svcs : List (String × ServiceConfig)),
      (combo.map Prod.fst).Nodup →
      ∀ name, (updateServices svcs combo).lookup name =
        match combo.lookup name with
        | some v => (svcs.lookup name).map
            fun cfg => { cfg with template := templateBase cfg.template ++ "@" ++ v }
        | none => svcs.lookup name := by
  intro combo
  induction combo with
  | nil => intro svcs _ name; rfl
  | cons kv rest ih =>
    intro svcs hnd name
    rcases kv with ⟨k, v⟩
    have hnd2 : (k :: rest.map Prod.fst).Nodup := by simpa using hnd
    rcases List.nodup_cons.mp hnd2 with ⟨hk, hrest⟩
    have hfold : updateServices svcs ((k, v) :: rest) =
        updateServices
          (match svcs.lookup k with
            | none => svcs
            | some cfg =>
              setEntry svcs k { cfg with template := templateBase cfg.template ++ "@" ++ v })
          rest := rfl
    rw [hfold, ih _ hrest name, lookup_cons]
    by_cases hn : name = k
    · subst hn
      rw [lookup_eq_none rest name hk, if_pos rfl, updateStep_lookup, if_pos rfl]
    · rw [if_neg hn]
      cases hrl : rest.lookup name with
      | none => rw [updateStep_lookup, if_neg hn]
      | some w => rw [updateStep_lookup, if_neg hn]

lemma hookRun_no_setTemplate (sh : String → Except String String) (hk : Option String)
    (s v : String) : Event.setTemplate s v ∉ (hookRun sh hk).1 := by
  cases hk with
  | none => simp [hookRun]
  | some c => simp [hookRun]

lemma runBranchScenario_no_setTemplate (sh : String → Except String String)
    (pfx sname : String) (cfg : TestSuite) (br : TestBranch) (s v : String) :
    Event.setTemplate s v ∉ (runBranchScenario sh pfx sname cfg br).1 := by
  unfold runBranchScenario
  split
  · simp [hookRun_no_setTemplate]
  · split
    · simp [hookRun_no_setTemplate]
    · simp [hookRun_no_setTemplate]

lemma runScenarios_no_setTemplate (sh : String → Except String String)
    (pfx sname : String) (cfg : TestSuite) (s v : String) :
    ∀ brs, Event.setTemplate s v ∉ (runScenarios sh pfx sname cfg brs).1 := by
  intro brs
  induction brs with
  | nil => simp [runScenarios]
  | cons br rest ih =>
    unfold runScenarios
    split
    · exact runBranchScenario_no_setTemplate sh pfx sname cfg br s v
    · split
      · simp [runBranchScenario_no_setTemplate, ih]
      · simp [runBranchScenario_no_setTemplate, ih]

lemma runTest_no_setTemplate (sh : String → Except String String) (pfx sname : String)
    (cfg : TestSuite) (s v : String) :
    Event.setTemplate s v ∉ (runTest sh pfx sname cfg).1 := by
  unfold runTest
  split
  · simp
  · exact runScenarios_no_setTemplate sh pfx sname cfg s v cfg.branches

lemma runSuitesSeq_no_setTemplate (sh : String → Except String String) (pfx s v : String) :
    ∀ suites, Event.setTemplate s v ∉ (runSuitesSeq sh pfx suites).1 := by
  intro suites
  induction suites with
  | nil => simp [runSuitesSeq]
  | cons p rest ih =>
    unfold runSuitesSeq
    split
    · exact runTest_no_setTemplate sh pfx p.1 p.2 s v
    · split
      · simp [runTest_no_setTemplate, ih]
      · simp [runTest_no_setTemplate, ih]

lemma hookRun_ok (sh : String → Except String String) (h : ShellOk sh) (hk : Option String) :
    (hookRun sh hk).2 = Except.ok () ∧ (hookRun sh hk).1.filterMap branchAliasOf = [] := by
  cases hk with
  | none => exact ⟨rfl, rfl⟩
  | some c =>
    obtain ⟨o, ho⟩ := h c
    exact ⟨by simp [hookRun, ho], rfl⟩

lemma runBranchScenario_ok (sh : String → Except String String) (h : ShellOk sh)
    (pfx sname : String) (cfg : TestSuite) (br : TestBranch) :
    (runBranchScenario sh pfx sname cfg br).1.filterMap branchAliasOf =
      [pfx ++ "-" ++ sname ++ "-" ++ br.name] ∧
    ∃ r, (runBranchScenario sh pfx sname cfg br).2 = Except.ok r := by
  have hb := hookRun_ok sh h br.before
  have ha := hookRun_ok sh h br.after
  unfold runBranchScenario
  rw [hb.1, ha.1]
  constructor
  · simp [List.filterMap_append, hb.2, ha.2, branchAliasOf]
  · exact ⟨_, rfl⟩

lemma runScenarios_ok (sh : String → Except String String) (h : ShellOk sh)
    (pfx sname : String) (cfg : TestSuite) :
    ∀ brs, (runScenarios sh pfx sname cfg brs).1.filterMap branchAliasOf =
        brs.map (fun br => pfx ++ "-" ++ sname ++ "-" ++ br.name) ∧
      ∃ rs, (runScenarios sh pfx sname cfg brs).2 = Except.ok rs := by
  intro brs
  induction brs with
  | nil => exact ⟨rfl, ⟨[], rfl⟩⟩
  | cons br rest ih =>
    obtain ⟨htr, r, hr⟩ := runBranchScenario_ok sh h pfx sname cfg br
    obtain ⟨htr2, rs, hrs⟩ := ih
    unfold runScenarios
    rw [hr, hrs]
    constructor
    · simp [List.filterMap_append, htr, htr2]
    · exact ⟨_, rfl⟩

lemma runTest_ok (sh : String → Except String String) (h : ShellOk sh)
    (pfx sname : String) (cfg : TestSuite) :
    (runTest sh pfx sname cfg).1.filterMap branchAliasOf =
      (if cfg.branches.isEmpty then [pfx ++ "-" ++ sname]
        else cfg.branches.map fun br => pfx ++ "-" ++ sname ++ "-" ++ br.name) ∧
    ∃ rs, (runTest sh pfx sname cfg).2 = Except.ok rs := by
  by_cases hbr : cfg.branches.isEmpty
  · rw [runTest, if_pos hbr, if_pos hbr]
    exact ⟨by simp [branchAliasOf], ⟨_, rfl⟩⟩
  · rw [runTest, if_neg hbr, if_neg hbr]
    exact runScenarios_ok sh h pfx sname cfg cfg.branches

lemma runSuitesSeq_aliases (sh : String → Except String String) (h : ShellOk sh)
    (pfx : String) :
    ∀ suites, (runSuitesSeq sh pfx suites).1.filterMap branchAliasOf =
        scenarioAliases pfx suites ∧
      ∃ rs, (runSuitesSeq sh pfx suites).2 = Except.ok rs := by
  intro suites
  induction suites with
  | nil => exact ⟨rfl, ⟨[], rfl⟩⟩
  | cons p rest ih =>
    obtain ⟨ht1, rs1, hr1⟩ := runTest_ok sh h pfx p.1 p.2
    obtain ⟨ht2, rs2, hr2⟩ := ih
    unfold runSuitesSeq
    rw [hr1, hr2]
    constructor
    · simp [List.filterMap_append, ht1, ht2, scenarioAliases, List.flatMap_cons]
    · exact ⟨_, rfl⟩

lemma length_flatMap_cons (k : String) (l : List String)
    (g : List (List (String × String))) :
    (l.flatMap fun v => g.map fun c => (k, v) :: c).length = l.length * g.length := by
  induction l with
  | nil => simp
  | cons v vs ih =>
    simp only [List.flatMap_cons, List.length_append, List.length_map, ih]
    rw [List.length_cons]
    ring

lemma nodup_flatMap_cons (k : String) (l : List String)
    (g : List (List (String × String))) (hl : l.Nodup) (hg : g.Nodup) :
    (l.flatMap fun v => g.map fun c => (k, v) :: c).Nodup := by
  induction l with
  | nil => simp
  | cons v vs ih =>
    rcases List.nodup_cons.mp hl with ⟨hv, hvs⟩
    rw [List.flatMap_cons]
    refine List.Nodup.append (hg.map ?_) (ih hvs) ?_
    · intro c1 c2 hc
      injection hc
    · intro x hx1 hx2
      rcases List.mem_map.mp hx1 with ⟨c1, _, rfl⟩
      rcases List.mem_flatMap.mp hx2 with ⟨v2, hv2, hx2m⟩
      rcases List.mem_map.mp hx2m with ⟨c2, _, heq⟩
      injection heq with h1 _
      injection h1 with _ h3
      exact hv (h3 ▸ hv2)

lemma mem_generate (f : Option (List (String × String))) :
    ∀ (m : List (String × List String)) (c), c ∈ generate f m ↔ IsChoice f m c := by
  intro m
  induction m with
  | nil => intro c; simp [generate, IsChoice, eq_comm]
  | cons p rest ih =>
    intro c
    rcases p with ⟨k, vs⟩
    simp only [generate, IsChoice, List.mem_flatMap, List.mem_map, List.mem_filter]
    constructor
    · rintro ⟨v, ⟨hv, hp⟩, c2, hc2, rfl⟩
      exact ⟨v, c2, hv, hp, (ih c2).mp hc2, rfl⟩
    · rintro ⟨v, c2, hv, hp, hch, rfl⟩
      exact ⟨v, ⟨hv, hp⟩, c2, (ih c2).mpr hch, rfl⟩

lemma nodup_generate (f : Option (List (String × String))) :
    ∀ (m : List (String × List String)), (∀ p ∈ m, (p.2 : List String).Nodup) →
      (generate f m).Nodup := by
  intro m
  induction m with
  | nil => intro _; simp [generate]
  | cons p rest ih =>
    intro h
    rcases p with ⟨k, vs⟩
    have hvs : vs.Nodup := h (k, vs) (List.mem_cons_self _ _)
    have hrest := ih fun q hq => h q (List.mem_cons_of_mem _ hq)
    exact nodup_flatMap_cons k (vs.filter (passesFilter f k)) (generate f rest)
      (hvs.filter _) hrest

lemma length_generate (f : Option (List (String × String))) :
    ∀ (m : List (String × List String)),
      (generate f m).length =
        (m.map fun p => (p.2.filter (passesFilter f p.1)).length).prod := by
  intro m
  induction m with
  | nil => simp [generate]
  | cons p rest ih =>
    rcases p with ⟨k, vs⟩
    simp only [generate]
    rw [length_flatMap_cons, ih, List.map_cons, List.prod_cons]

lemma runMatrixSeq_all_pass (oc : List (String × String) → Except String Bool) :
    ∀ combos, (∀ c ∈ combos, oc c = Except.ok false) →
      runMatrixSeq oc false combos = combos.map (matrixResultOf oc) := by
  intro combos
  induction combos with
  | nil => intro _; rfl
  | cons c rest ih =>
    intro h
    have hc := h c (List.mem_cons_self _ _)
    unfold runMatrixSeq
    rw [hc]
    simp [ih fun x hx => h x (List.mem_cons_of_mem _ hx)]

lemma runMatrixSeq_stops (oc : List (String × String) → Except String Bool) :
    ∀ (pre : List (List (String × String))) (c : List (String × String)) rest,
      (∀ p ∈ pre, oc p = Except.ok false) →
      (oc c = Except.ok true ∨ ∃ e, oc c = Except.error e) →
      runMatrixSeq oc false (pre ++ c :: rest) =
        pre.map (matrixResultOf oc) ++ [matrixResultOf oc c] := by
  intro pre
  induction pre with
  | nil =>
    intro c rest _ hc
    rcases hc with hc | ⟨e, hc⟩
    · rw [List.nil_append]
      unfold runMatrixSeq
      rw [hc]
      simp
    · rw [List.nil_append]
      unfold runMatrixSeq
      rw [hc]
      simp
  | cons p ps ih =>
    intro c rest hpre hc
    have hp := hpre p (List.mem_cons_self _ _)
    rw [List.cons_append]
    unfold runMatrixSeq
    rw [hp]
    simp [ih c rest (fun x hx => hpre x (List.mem_cons_of_mem _ hx)) hc]

lemma runMatrixSeq_cont (oc : List (String × String) → Except String Bool) :
    ∀ combos, runMatrixSeq oc true combos = combos.map (matrixResultOf oc) := by
  intro combos
  induction combos with
  | nil => rfl
  | cons c rest ih =>
    unfold runMatrixSeq
    cases hc : oc c with
    | ok b => simp [ih]
    | error e => simp [ih]

lemma runMatrixPar_all_ok (oc : List (String × String) → Except String Bool) :
    ∀ combos, (∀ c ∈ combos, ∃ b, oc c = Except.ok b) →
      runMatrixPar oc combos = Except.ok (combos.map (matrixResultOf oc)) := by
  intro combos
  induction combos with
  | nil => intro _; rfl
  | cons c rest ih =>
    intro h
    obtain ⟨b, hb⟩ := h c (List.mem_cons_self _ _)
    unfold runMatrixPar
    rw [hb, ih fun x hx => h x (List.mem_cons_of_mem _ hx)]
    simp

/-! ## Claim theorems -/

/-- C1: the claim says integration_up issues the platform start command for
each dependency strictly before every direct or transitive dependent for
any acyclic manifest. The code only fixes up direct unmet dependencies of
the service currently being processed, so on the acyclic chain
a -> b -> c (declared a, b, c) it issues starts in the order
b, a, c, b, c: the first start of c, a dependency of b, comes strictly
after the first start of b, contradicting the claim and the code's own
"Start services in dependency order" comment. -/
theorem vers_C1_code_bug :
    Acyclic exUpServices ∧
    "c" ∈ reach exUpServices 3 "b" ∧
    (integrationUp exUpServices ["a", "b", "c"] fun _ => true).issued =
      ["b", "a", "c", "b", "c"] ∧
    (integrationUp exUpServices ["a", "b", "c"] fun _ => true).issued.findIdx (· == "b") <
      (integrationUp exUpServices ["a", "b", "c"] fun _ => true).issued.findIdx (· == "c") := by
  refine ⟨by decide, by decide, by decide, by decide⟩

/-- C2 (amended): in an integration_test run, sequential or any
interleaving of the parallel suite tasks, the baseline checkpoint commit
tagged pfx-baseline-ts is the first event of the trace and every
branch-creation event comes strictly after it. (The original claim's
further consequence that all scenarios therefore fork from identical state
fails; see the counterexample.) -/
theorem vers_C2_amended (sh : String → Except String String) (pfx ts : String)
    (suites : List (String × TestSuite)) (t : List Event)
    (_ht : t = (runSuitesSeq sh pfx suites).1 ∨
      Merge (suites.map fun p => (runTest sh pfx p.1 p.2).1) t) :
    (integrationTestTrace pfx ts t).get? 0 =
      some (Event.commit (pfx ++ "-baseline-" ++ ts)) ∧
    ∀ i b, (integrationTestTrace pfx ts t).get? i = some (Event.branch b) → 0 < i := by
  refine ⟨rfl, ?_⟩
  intro i b h
  match i with
  | 0 => simp [integrationTestTrace] at h
  | i + 1 => exact Nat.succ_pos i

/-- Witness for C2 at a concrete sequential run. -/
theorem vers_C2_witness :
    (integrationTestTrace "test" "1" (runSuitesSeq exShOk "test" exC2Suites).1).get? 0 =
      some (Event.commit ("test" ++ "-baseline-" ++ "1")) :=
  (vers_C2_amended exShOk "test" "1" exC2Suites (runSuitesSeq exShOk "test" exC2Suites).1
    (Or.inl rfl)).1

/-- C2 counterexample: branches are created with `vers branch --alias ...`
and no `--from`, so they fork from the current HEAD. In a sequential run of
one suite with two scenarios, the first branch forks from main but the
second forks from the first scenario's branch (after its test command ran),
so it is false that all scenarios fork from identical (baseline) state. -/
theorem vers_C2_counterexample :
    forkParents "main" (integrationTestSeq exShOk "test" "1" exC2Suites).1 =
      [("test-s-b1", "main"), ("test-s-b2", "test-s-b1")] ∧
    ¬ ∀ p1 ∈ forkParents "main" (integrationTestSeq exShOk "test" "1" exC2Suites).1,
        ∀ p2 ∈ forkParents "main" (integrationTestSeq exShOk "test" "1" exC2Suites).1,
          p1.2 = p2.2 := by
  refine ⟨by decide, by decide⟩

/-- C3 (amended): provided every dimension's value list is duplicate-free,
the generator enumerates exactly the cartesian product of the value lists
restricted to the filter (membership is equivalent to choosing one
filter-passing value per dimension), with no duplicate combinations, and
its size is the product of the filtered dimension sizes; the example matrix
yields exactly 6 combinations, and filtered by redis=7 exactly 3, each
assigning redis=7. -/
theorem vers_C3_amended :
    (∀ (m : List (String × List String)) (f : Option (List (String × String))),
      (∀ p ∈ m, (p.2 : List String).Nodup) →
        (∀ c, c ∈ generate f m ↔ IsChoice f m c) ∧
        (generate f m).Nodup ∧
        (generate f m).length =
          (m.map fun p => (p.2.filter (passesFilter f p.1)).length).prod) ∧
    (generate none exMatrix).length = 6 ∧
    (generate (some [("redis", "7")]) exMatrix).length = 3 ∧
    ∀ c ∈ generate (some [("redis", "7")]) exMatrix, c.lookup "redis" = some "7" := by
  refine ⟨fun m f h => ⟨mem_generate f m, nodup_generate f m h, length_generate f m⟩,
    by decide, by decide, by decide⟩

/-- Witness for C3 on the example matrix with the redis=7 filter. -/
theorem vers_C3_witness :
    (generate (some [("redis", "7")]) exMatrix).Nodup :=
  (vers_C3_amended.1 exMatrix (some [("redis", "7")]) (by decide)).2.1

/-- C3 counterexample: on a matrix whose dimension list repeats a value,
the generator enumerates the repeated combination twice, so the claim's
universally quantified "no duplicate combinations" is false as stated. -/
theorem vers_C3_counterexample :
    generate none exDupMatrix = [[("postgres", "14")], [("postgres", "14")]] ∧
    ¬ (generate none exDupMatrix).Nodup := by
  refine ⟨by decide, by decide⟩

/-- C4 (amended): the manifest is not read-only during integration_matrix
runs: runCombination rewrites exactly the ServiceSpec.template fields of
the services named by the combination (to base@version), leaving every
other service and every other field unchanged; integration_test runs, in
contrast, perform no manifest mutation (their traces contain no
setTemplate event). -/
theorem vers_C4_amended :
    (∀ (services : List (String × ServiceConfig)) (combo : List (String × String)),
      (combo.map Prod.fst).Nodup →
      ∀ name, (updateServices services combo).lookup name =
        match combo.lookup name with
        | some v => (services.lookup name).map
            fun cfg => { cfg with template := templateBase cfg.template ++ "@" ++ v }
        | none => services.lookup name) ∧
    ∀ (sh : String → Except String String) (pfx : String)
      (suites : List (String × TestSuite)) (s v : String),
      Event.setTemplate s v ∉ (runSuitesSeq sh pfx suites).1 :=
  ⟨fun services combo h name => updateServices_lookup combo services h name,
    fun sh pfx suites s v => runSuitesSeq_no_setTemplate sh pfx s v suites⟩

/-- Witness for C4 on the concrete postgres version substitution. -/
theorem vers_C4_witness :
    (updateServices exServices4 exCombo4).lookup "postgres" =
      some { template := "postgres@16", depends_on := [] } := by
  have h := vers_C4_amended.1 exServices4 exCombo4 (by decide) "postgres"
  rw [h]
  decide

/-- C4 counterexample: runCombination rewrites ServiceSpec.template in
place — after running the combination postgres=16, the manifest's service
map differs from the one loaded at run start, so the manifest is not
read-only during an integration_matrix run. -/
theorem vers_C4_counterexample :
    updateServices exServices4 exCombo4 =
      [("postgres", { template := "postgres@16", depends_on := [] })] ∧
    updateServices exServices4 exCombo4 ≠ exServices4 := by
  refine ⟨by decide, by decide⟩

/-- C5 (amended): the run performs no duplicate-alias detection and raises
no BranchCollisionError: under a shell in which every command succeeds, a
sequential run emits exactly one branch-creation command per scenario with
the derived alias pfx-suite-scenario (pfx-suite for implicit scenarios),
duplicates included, and completes normally with ok results. -/
theorem vers_C5_amended (sh : String → Except String String) (h : ShellOk sh) (pfx : String)
    (suites : List (String × TestSuite)) :
    (runSuitesSeq sh pfx suites).1.filterMap branchAliasOf = scenarioAliases pfx suites ∧
    ∃ rs, (runSuitesSeq sh pfx suites).2 = Except.ok rs :=
  runSuitesSeq_aliases sh h pfx suites

/-- Witness for C5 on the colliding-alias run. -/
theorem vers_C5_witness :
    (runSuitesSeq exShOk "test" exCollidingSuites).1.filterMap branchAliasOf =
      scenarioAliases "test" exCollidingSuites :=
  (vers_C5_amended exShOk (fun _ => ⟨"", rfl⟩) "test" exCollidingSuites).1

/-- C5 counterexample: suites a (scenario b-c) and a-b (scenario c) both
derive the alias test-a-b-c. The run issues two branch-creation commands
with that same alias and completes normally with both TestResults — no
BranchCollisionError exists anywhere in the code, so the duplicate alias is
silently created rather than rejected. -/
theorem vers_C5_counterexample :
    (runSuitesSeq exShOk "test" exCollidingSuites).1.count (Event.branch "test-a-b-c") = 2 ∧
    (runSuitesSeq exShOk "test" exCollidingSuites).2 =
      Except.ok
        [{ suite := "a", branch := "b-c", status := TStatus.passed, output := some "" },
         { suite := "a-b", branch := "c", status := TStatus.passed, output := some "" }] := by
  refine ⟨by decide, rfl⟩

/-- C6: chaos_inject, for every service, action kind, duration and
intensity, first commits the checkpoint tagged pre-chaos-service-ts as the
very first issued call, every executed command comes strictly after that
commit, and the same tag is returned as rollback_checkpoint. -/
theorem vers_C6_confirmed (service : String) (action : ChaosAction)
    (duration : Option String) (intensity : Option Int) (ts : String) :
    (chaosInject service action duration intensity ts).1 =
      [Event.commit ("pre-chaos-" ++ service ++ "-" ++ ts),
       Event.run (chaosCommand service action duration intensity)] ∧
    (∀ i cmd, (chaosInject service action duration intensity ts).1.get? i =
      some (Event.run cmd) → 0 < i) ∧
    (chaosInject service action duration intensity ts).2.rollback_checkpoint =
      "pre-chaos-" ++ service ++ "-" ++ ts := by
  refine ⟨rfl, ?_, rfl⟩
  intro i cmd h
  match i with
  | 0 => simp [chaosInject] at h
  | i + 1 => exact Nat.succ_pos i

/-- Witness for C6 at a concrete kill injection. -/
theorem vers_C6_witness :
    0 < 1 ∧
    (chaosInject "postgres" ChaosAction.kill none none "100").2.rollback_checkpoint =
      "pre-chaos-" ++ "postgres" ++ "-" ++ "100" :=
  ⟨(vers_C6_confirmed "postgres" ChaosAction.kill none none "100").2.1 1
      (chaosCommand "postgres" ChaosAction.kill none none) rfl,
    (vers_C6_confirmed "postgres" ChaosAction.kill none none "100").2.2⟩

/-- C7 (amended): an omitted (or zero) intensity defaults to 80 for
cpu-stress and memory-stress but to 95 for disk-fill, and a provided
nonzero intensity is substituted into the issued command verbatim with no
clamping, so it lies in 0-100 only when the caller's value does. -/
theorem vers_C7_amended :
    (∀ s d, chaosCommand s ChaosAction.cpuStress d none =
      chaosCommand s ChaosAction.cpuStress d (some 80)) ∧
    (∀ s d, chaosCommand s ChaosAction.memoryStress d none =
      chaosCommand s ChaosAction.memoryStress d (some 80)) ∧
    (∀ s d, chaosCommand s ChaosAction.diskFill d none =
      chaosCommand s ChaosAction.diskFill d (some 95)) ∧
    ∀ (i : Int), i ≠ 0 → ∀ s d,
      chaosCommand s ChaosAction.cpuStress d (some i) =
        "execute --service " ++ s ++ " \"stress-ng --cpu 2 --cpu-load " ++ toString i
          ++ " --timeout " ++ jsOrStr d "30s" ++ "\"" ∧
      chaosCommand s ChaosAction.memoryStress d (some i) =
        "execute --service " ++ s ++ " \"stress-ng --vm 1 --vm-bytes " ++ toString i
          ++ "% --timeout " ++ jsOrStr d "30s" ++ "\"" ∧
      chaosCommand s ChaosAction.diskFill d (some i) =
        "execute --service " ++ s ++ " \"fallocate -l $(df / | awk " ++ sq
          ++ "NR==2 \x7bprint int($4*" ++ toString i ++ "/100)\x7d" ++ sq
          ++ ")K /tmp/fill\"" := by
  refine ⟨fun s d => rfl, fun s d => rfl, fun s d => rfl, fun i hi s d => ?_⟩
  refine ⟨?_, ?_, ?_⟩ <;> simp [chaosCommand, jsOrInt, hi]

/-- Witness for C7 with the out-of-bounds intensity 150. -/
theorem vers_C7_witness :
    chaosCommand "db" ChaosAction.cpuStress none (some 150) =
      "execute --service " ++ "db" ++ " \"stress-ng --cpu 2 --cpu-load " ++ toString (150 : Int)
        ++ " --timeout " ++ jsOrStr none "30s" ++ "\"" :=
  (vers_C7_amended.2.2.2 150 (by decide) "db" none).1

/-- C7 counterexample: disk-fill with an omitted intensity behaves as
intensity 95, not 80, and an intensity of 150 is placed in the issued
command unchanged, outside the claimed 0-100 bound. -/
theorem vers_C7_counterexample :
    chaosCommand "db" ChaosAction.diskFill none none =
      chaosCommand "db" ChaosAction.diskFill none (some 95) ∧
    chaosCommand "db" ChaosAction.diskFill none none ≠
      chaosCommand "db" ChaosAction.diskFill none (some 80) ∧
    chaosCommand "db" ChaosAction.cpuStress none (some 150) =
      "execute --service db \"stress-ng --cpu 2 --cpu-load 150 --timeout 30s\"" := by
  refine ⟨rfl, by decide, rfl⟩

/-- C8 (amended): in sequential mode with continue_on_failure=false the run
short-circuits at the first combination whose status is failed or error and
reports exactly the attempted prefix up to and including it (all results
when every combination passes), and with continue_on_failure=true it
reports every combination; in parallel mode continue_on_failure has no
effect at all — every combination is run, and all results are reported
whenever no combination throws. -/
theorem vers_C8_amended :
    (∀ (oc : List (String × String) → Except String Bool) combos,
      (∀ c ∈ combos, oc c = Except.ok false) →
      runMatrixSeq oc false combos = combos.map (matrixResultOf oc)) ∧
    (∀ (oc : List (String × String) → Except String Bool) pre c rest,
      (∀ p ∈ pre, oc p = Except.ok false) →
      (oc c = Except.ok true ∨ ∃ e, oc c = Except.error e) →
      runMatrixSeq oc false (pre ++ c :: rest) =
        pre.map (matrixResultOf oc) ++ [matrixResultOf oc c]) ∧
    (∀ (oc : List (String × String) → Except String Bool) combos,
      runMatrixSeq oc true combos = combos.map (matrixResultOf oc)) ∧
    (∀ (oc : List (String × String) → Except String Bool) (cont cont2 : Bool) combos,
      integrationMatrix oc true cont combos = integrationMatrix oc true cont2 combos) ∧
    ∀ (oc : List (String × String) → Except String Bool) combos (cont : Bool),
      (∀ c ∈ combos, ∃ b, oc c = Except.ok b) →
      integrationMatrix oc true cont combos =
        Except.ok (combos.map (matrixResultOf oc)) := by
  refine ⟨fun oc combos h => runMatrixSeq_all_pass oc combos h,
    fun oc pre c rest h1 h2 => runMatrixSeq_stops oc pre c rest h1 h2,
    fun oc combos => runMatrixSeq_cont oc combos,
    fun oc cont cont2 combos => rfl,
    fun oc combos cont h => runMatrixPar_all_ok oc combos h⟩

/-- Witness for C8 on an all-passing sequential run. -/
theorem vers_C8_witness :
    runMatrixSeq exOutcomePass false exCombos = exCombos.map (matrixResultOf exOutcomePass) :=
  vers_C8_amended.1 exOutcomePass exCombos fun _ _ => rfl

/-- C8 counterexample: with parallel=true and continue_on_failure=false,
a run over two combinations whose first fails reports results for both
combinations instead of short-circuiting after the first, while the
sequential runner over the same input does stop at the first failure —
so the claimed short-circuit does not hold in every mode. -/
theorem vers_C8_counterexample :
    integrationMatrix exOutcome true false exCombos =
      Except.ok
        [{ combination := [("postgres", "14")], status := MStatus.failed },
         { combination := [("postgres", "15")], status := MStatus.passed }] ∧
    runMatrixSeq exOutcome false exCombos =
      [{ combination := [("postgres", "14")], status := MStatus.failed }] := by
  refine ⟨rfl, by decide⟩

/-- C9: the claim (and the spec) say an after-hook failure is logged on a
best-effort basis, never flips the scenario's recorded result, and leaves
siblings untouched. The code runs the after hook with no try/catch (unlike
the test command itself), so when scenario b1's after hook fails the whole
runTest rejects: the already-recorded passed result for b1 is lost, no
results are returned at all, and sibling b2 is never branched — under an
all-succeeding shell the same suite returns both passed results. -/
theorem vers_C9_code_bug :
    (runTest exSh9 "test" "s" exSuite9).2 = Except.error "boom" ∧
    Event.branch "test-s-b2" ∉ (runTest exSh9 "test" "s" exSuite9).1 ∧
    (runTest exShOk "test" "s" exSuite9).2 =
      Except.ok
        [{ suite := "s", branch := "b1", status := TStatus.passed, output := some "" },
         { suite := "s", branch := "b2", status := TStatus.passed, output := some "" }] := by
  refine ⟨rfl, by decide, rfl⟩

/-- C10: when a manifest already parses, integration_init returns the
already-initialized message naming the existing project and leaves the file
system — manifest, vers.toml and directories — exactly unchanged, for every
name and template argument. -/
theorem vers_C10_confirmed (fs : FileSys) (name : String) (template : Option String)
    (m : Manifest) (h : fs.manifest = some m) :
    integrationInit fs name template = (fs, "Project already initialized: " ++ m.name) := by
  unfold integrationInit
  rw [h]

/-- Witness for C10 on a concrete initialized project. -/
theorem vers_C10_witness :
    integrationInit exFs "other" (some "ecommerce") =
      (exFs, "Project already initialized: " ++ (baseManifest "demo").name) :=
  vers_C10_confirmed exFs "other" (some "ecommerce") (baseManifest "demo") rfl

end VersIntegration
